import Mathlib

/-!
Verification of the weather-dashboard core (App.vue, weatherService, storage,
types) against its natural-language specification.

The TypeScript sources are shallowly embedded: pure functions become Lean
functions, the reactive store state is passed explicitly, JS numbers are
rationals (with a distinguished NaN where it matters), fallible code returns
`Except`, and Date.now() is an explicit argument.  JS string builtins
(trim / toLowerCase / includes) are re-implemented over `List Char` so that
all definitions evaluate by kernel reduction.
-/

set_option linter.unusedVariables false

/-! JS primitive helpers -/

/-- A JavaScript number: NaN or a finite value, modelled as an exact
rational.  Infinities do not arise in the embedded fragments. -/
inductive JSNum where
  | nan : JSNum
  | num (val : Rat) : JSNum
deriving DecidableEq

def JSNum.isNaN : JSNum → Bool
  | .nan => true
  | .num _ => false

/-- ASCII case folding of a character, as JS toLowerCase acts on ASCII
(the repository only compares ASCII search terms and keys). -/
def jsCharToLower (c : Char) : Char :=
  if 'A' ≤ c ∧ c ≤ 'Z' then Char.ofNat (c.toNat + 32) else c

/-- JS String.prototype.toLowerCase, ASCII fragment. -/
def jsToLower (s : String) : String :=
  String.mk (s.toList.map jsCharToLower)

/-- JS String.prototype.trim: strip leading and trailing whitespace. -/
def jsTrim (s : String) : String :=
  String.mk (((s.toList.dropWhile Char.isWhitespace).reverse.dropWhile
    Char.isWhitespace).reverse)

/-- Does the character list `needle` occur contiguously inside `hay`? -/
def containsSub (needle : List Char) : List Char → Bool
  | [] => needle.isEmpty
  | c :: rest => needle.isPrefixOf (c :: rest) || containsSub needle rest

/-- JS String.prototype.includes: `strIncludes hay needle` is
`hay.includes(needle)`. -/
def strIncludes (hay needle : String) : Bool :=
  containsSub needle.toList hay.toList

/-- Value of a list of decimal digit characters. -/
def digitsToNat (l : List Char) : Nat :=
  l.foldl (fun a c => a * 10 + (c.toNat - 48)) 0

/-- Unsigned decimal literal: digits, optionally a point and more digits,
with at least one digit overall ("12", "12.5", ".5", "12." are accepted). -/
def parseUnsignedDec (l : List Char) : Option Rat :=
  let ip := l.takeWhile Char.isDigit
  let rest := l.dropWhile Char.isDigit
  match rest with
  | [] => if ip.isEmpty then none else some ((digitsToNat ip : Nat) : Rat)
  | '.' :: frac =>
    if frac.all Char.isDigit && !(ip.isEmpty && frac.isEmpty) then
      some (((digitsToNat ip : Nat) : Rat) +
        ((digitsToNat frac : Nat) : Rat) / ((10 : Rat) ^ frac.length))
    else none
  | _ => none

/-- Signed decimal literal. -/
def parseSignedDec (l : List Char) : Option Rat :=
  match l with
  | '-' :: rest => (parseUnsignedDec rest).map (fun q => -q)
  | '+' :: rest => parseUnsignedDec rest
  | _ => parseUnsignedDec l

/-- JS Number(string) on the decimal fragment: after trimming, the empty
string is 0, a signed decimal literal is its value, anything else is NaN.
(Hexadecimal, exponent and Infinity forms are omitted; no claim depends on
them.) -/
def jsNumber (s : String) : JSNum :=
  let t := (jsTrim s).toList
  if t.isEmpty then .num 0
  else
    match parseSignedDec t with
    | some q => .num q
    | none => .nan

/-- JS Math.round (round half toward +∞), i.e. ⌊x + 1/2⌋, computed on the
rational's numerator/denominator so that it evaluates by kernel reduction. -/
def jsRound (q : Rat) : Int :=
  Int.fdiv (2 * q.num + q.den) (2 * q.den)

/-- JS template-literal rendering of an integer. -/
def intToString (i : Int) : String :=
  toString i

/-- JS template-literal rendering of a (finite) number.  Integral values
render exactly as JS does; non-integral values are rendered from the
numerator/denominator pair (the claims only depend on integral values and on
distinct inputs rendering distinctly for equal denominators). -/
def numToString (q : Rat) : String :=
  if q.den = 1 then intToString q.num
  else intToString q.num ++ ("/") ++ intToString (q.den : Int)

/-- JS template rendering of a possibly-undefined number field
(`${undefined}` renders as "undefined"). -/
def numFieldToString : Option Rat → String
  | some v => numToString v
  | none => ("undefined")

/-- JS truthiness of a possibly-undefined string (undefined and "" are
falsy). -/
def truthyOptStr : Option String → Bool
  | some s => s != ""
  | none => false

/-- JS truthiness of a possibly-undefined number (undefined and 0 are
falsy; statuses are integers here). -/
def truthyOptInt : Option Int → Bool
  | some n => n != 0
  | none => false

/-- JS `a || b` on possibly-undefined strings: `a` when truthy, else `b`. -/
def jsOrElse (a b : Option String) : Option String :=
  match a with
  | some s => if s != "" then some s else b
  | none => b

/-! Data model (types.ts) -/

inductive SearchMode where
  | city
  | zip
  | coords
deriving DecidableEq

/-- The string a SearchMode produces inside a template literal
(`${mode}-...`). -/
def SearchMode.asString : SearchMode → String
  | .city => ("city")
  | .zip => ("zip")
  | .coords => ("coords")

structure WeatherView where
  id : Int
  name : String
  country : String
  description : String
  icon : String
  temperature : Rat
  humidity : Rat
  wind : Rat
  pressure : Rat
  sunrise : Int
  sunset : Int
  updatedAt : Int
deriving DecidableEq

/-- A saved forecast.  `lat`/`lon` hold the finite numbers buildQuery
produced (its NaN check has already passed for coordinate entries). -/
structure SavedForecast where
  key : String
  mode : SearchMode
  value : String
  country : Option String
  lat : Option Rat
  lon : Option Rat
  weather : WeatherView
deriving DecidableEq

inductive NoteKind where
  | success
  | info
  | danger
deriving DecidableEq

/-! Weather provider response shape (weatherService WeatherApiResponse);
the outer objects are optional because mapWeather reads them with `?.`. -/

structure ApiSys where
  country : String
  sunrise : Int
  sunset : Int
deriving DecidableEq

structure ApiMain where
  temp : Rat
  humidity : Rat
  pressure : Rat
deriving DecidableEq

structure ApiWind where
  speed : Rat
deriving DecidableEq

structure ApiCondition where
  description : String
  icon : String
deriving DecidableEq

structure WeatherApiResponse where
  id : Int
  name : String
  sys : Option ApiSys
  main : Option ApiMain
  wind : Option ApiWind
  weather : List ApiCondition
deriving DecidableEq

/-- mapWeather (App.vue 93-109).  Date.now() is the explicit `now`
argument; successive readings of the real clock are non-decreasing but may
repeat (millisecond resolution). -/
def mapWeather (now : Int) (data : WeatherApiResponse) : WeatherView :=
  let iconCode := ((data.weather.head?).map ApiCondition.icon).getD ("01d")
  { id := data.id
    name := data.name
    country := ((data.sys).map ApiSys.country).getD ("")
    description := ((data.weather.head?).map ApiCondition.description).getD ("N/A")
    icon := ("https://openweathermap.org/img/wn/") ++ iconCode ++ ("@2x.png")
    temperature := ((data.main).map ApiMain.temp).getD 0
    humidity := ((data.main).map ApiMain.humidity).getD 0
    wind := ((data.wind).map ApiWind.speed).getD 0
    pressure := ((data.main).map ApiMain.pressure).getD 0
    sunrise := ((data.sys).map ApiSys.sunrise).getD 0
    sunset := ((data.sys).map ApiSys.sunset).getD 0
    updatedAt := now }

/-- forecastKey (App.vue 86-88). -/
def forecastKey (mode : SearchMode) (value : String) : String :=
  jsToLower (mode.asString ++ ("-") ++ value)

/-! Query building and the add flow (App.vue 111-168) -/

/-- The form state bound to the add-forecast modal. -/
structure FormState where
  mode : SearchMode
  city : String
  zip : String
  zipCountry : String
  lat : String
  lon : String
deriving DecidableEq

/-- The query object buildQuery returns.  For coordinate queries the NaN
check has passed, so `lat`/`lon` hold finite values. -/
structure BuiltQuery where
  mode : SearchMode
  city : Option String
  zip : Option String
  country : Option String
  lat : Option Rat
  lon : Option Rat
deriving DecidableEq

/-- Finite value of a JS number that passed an isNaN check. -/
def JSNum.val : JSNum → Rat
  | .nan => 0
  | .num q => q

/-- buildQuery (App.vue 154-168): throwing is modelled as `Except.error`
carrying the thrown message. -/
def buildQuery (f : FormState) : Except String BuiltQuery :=
  match f.mode with
  | .city =>
    if jsTrim f.city == ("") then .error ("Enter a city name.")
    else .ok ⟨.city, some (jsTrim f.city), none, none, none, none⟩
  | .zip =>
    if jsTrim f.zip == ("") then .error ("Enter a ZIP/postal code.")
    else .ok ⟨.zip, none, some (jsTrim f.zip),
      (if jsTrim f.zipCountry != ("") then some (jsTrim f.zipCountry) else none),
      none, none⟩
  | .coords =>
    let lat := jsNumber f.lat
    let lon := jsNumber f.lon
    if lat.isNaN || lon.isNaN then .error ("Enter valid coordinates.")
    else .ok ⟨.coords, none, none, none, some lat.val, some lon.val⟩

/-- Key derivation in handleAdd (App.vue 122-124). -/
def deriveKey (q : BuiltQuery) : String :=
  match q.mode with
  | .coords =>
    forecastKey .coords (numFieldToString q.lat ++ (",") ++ numFieldToString q.lon)
  | m => forecastKey m ((jsOrElse q.city q.zip).getD (""))

/-- The SavedForecast handleAdd builds (App.vue 127-135); `??` chains are
nullish, so they fall through only on undefined. -/
def mkSavedItem (q : BuiltQuery) (weather : WeatherView) : SavedForecast :=
  { key := deriveKey q
    mode := q.mode
    value :=
      match q.city with
      | some c => c
      | none =>
        match q.zip with
        | some z => z
        | none => numFieldToString q.lat ++ (",") ++ numFieldToString q.lon
    country := q.country
    lat := q.lat
    lon := q.lon
    weather := weather }

/-- Index of the first entry whose key matches
(`savedForecasts.findIndex((f) => f.key === key)`, App.vue 126). -/
def findIndexKey (key : String) : List SavedForecast → Option Nat
  | [] => none
  | f :: rest =>
    if f.key == key then some 0 else (findIndexKey key rest).map (· + 1)

/-- The upsert core of handleAdd (App.vue 126-141): replace in place at the
first matching index (`splice(existingIndex, 1, item)`), else insert at the
front (`unshift`). -/
def handleAdd (item : SavedForecast) (col : List SavedForecast) : List SavedForecast :=
  match findIndexKey item.key col with
  | some i => col.set i item
  | none => item :: col

/-- removeForecast (App.vue 179-183). -/
def removeForecast (key : String) (col : List SavedForecast) : List SavedForecast :=
  col.filter (fun f => f.key != key)

/-- A user-level mutation of the saved collection. -/
inductive StoreOp where
  | add (item : SavedForecast)
  | remove (key : String)

def applyOp (col : List SavedForecast) : StoreOp → List SavedForecast
  | .add item => handleAdd item col
  | .remove key => removeForecast key col

/-- The collection after a sequence of add/remove operations, starting from
the empty collection. -/
def applyOps (ops : List StoreOp) : List SavedForecast :=
  ops.foldl applyOp []

/-! Search and pagination (App.vue 56-84) -/

def PAGE_SIZE : Nat := 10

/-- The four fields the search matches against (App.vue 60-65). -/
def searchFields (f : SavedForecast) : List String :=
  [f.weather.name, f.weather.country, f.weather.description,
   intToString (jsRound f.weather.temperature)]

/-- The `filtered` computed view (App.vue 56-69): trim and lower-case the
term; an empty result keeps the whole collection; otherwise keep entries one
of whose truthy fields contains the term. -/
def filtered (term : String) (col : List SavedForecast) : List SavedForecast :=
  let t := jsToLower (jsTrim term)
  if t == ("") then col
  else col.filter (fun f =>
    ((searchFields f).filter (fun s => s != (""))).any
      (fun s => strIncludes (jsToLower s) t))

/-- The `paged` computed view (App.vue 71-74):
`filtered.slice(start, start + PAGE_SIZE)`. -/
def paged (col : List SavedForecast) (currentPage : Nat) : List SavedForecast :=
  (col.drop ((currentPage - 1) * PAGE_SIZE)).take PAGE_SIZE

/-- totalPages (App.vue 76-78): `max(1, ceil(length / PAGE_SIZE) || 1)`.
Ceiling division of naturals is `(n + 9) / 10`; the `|| 1` turns the 0 of an
empty list into 1 before the max. -/
def totalPages (filteredLength : Nat) : Nat :=
  let c := (filteredLength + PAGE_SIZE - 1) / PAGE_SIZE
  max 1 (if c = 0 then 1 else c)

/-- The `watch(filtered, ...)` handler (App.vue 80-84): reset to page 1 when
the current page exceeds the total. -/
def watchFilteredReset (currentPage totalPagesNow : Nat) : Nat :=
  if currentPage > totalPagesNow then 1 else currentPage

/-! Error classification (App.vue parseError, 211-245) -/

/-- The response part of an axios-style error. -/
structure JSResponse where
  dataMessage : Option String
  status : Option Int
deriving DecidableEq

/-- A caught JS failure value: a plain string, an object (with optional
request / response / message fields, as parseError probes them), or any
other non-object value (null, undefined, a number, ...). -/
inductive JSError where
  | str (s : String)
  | obj (request : Bool) (response : Option JSResponse) (message : Option String)
  | other
deriving DecidableEq

/-- parseError (App.vue 211-245), clause for clause. -/
def parseError : JSError → String
  | .str s => s
  | .other => ("Something went wrong. Please try again.")
  | .obj request response message =>
    if request && response.isNone then
      ("Network error: Could not reach the server. Check your internet connection.")
    else
      match response with
      | some r =>
        if truthyOptStr r.dataMessage then
          (if truthyOptInt r.status then
            ("[") ++ intToString (r.status.getD 0) ++ ("] ") else ("")) ++
            r.dataMessage.getD ("")
        else if r.status == some 401 then
          ("Invalid API key. Please check your OpenWeatherMap API key.")
        else if r.status == some 404 then
          ("City not found. Please check the city name.")
        else if r.status == some 429 then
          ("Too many requests. Please wait a moment.")
        else
          ("API error: ") ++
            (if truthyOptInt r.status then intToString (r.status.getD 0)
             else ("Unknown error"))
      | none =>
        if truthyOptStr message then message.getD ("")
        else ("Something went wrong. Please try again.")

/-! Weather client (weatherService fetchWeather) -/

/-- The query object fetchWeather receives. -/
structure WeatherQuery where
  mode : SearchMode
  city : Option String
  zip : Option String
  country : Option String
  lat : Option JSNum
  lon : Option JSNum
  apiKey : String
deriving DecidableEq

/-- The query parameters of the GET request fetchWeather issues. -/
structure RequestParams where
  appid : String
  units : String
  q : Option String
  zip : Option String
  lat : Option JSNum
  lon : Option JSNum
deriving DecidableEq

/-- fetchWeather's validation and parameter building (weatherService
149-171).  A successful result is the parameter set of the GET request that
is then issued; the transport itself is an external collaborator. -/
def fetchWeather (query : WeatherQuery) : Except String RequestParams :=
  match query.mode with
  | .city =>
    if ((query.city.map jsTrim).getD ("")) == ("") then
      .error ("City name is required")
    else
      .ok ⟨query.apiKey, ("metric"), some (jsTrim (query.city.getD (""))),
        none, none, none⟩
  | .zip =>
    if ((query.zip.map jsTrim).getD ("")) == ("") then
      .error ("ZIP code is required")
    else
      .ok ⟨query.apiKey, ("metric"), none,
        some (if truthyOptStr query.country then
          jsTrim (query.zip.getD ("")) ++ (",") ++ jsTrim (query.country.getD (""))
        else jsTrim (query.zip.getD (""))),
        none, none⟩
  | .coords =>
    if query.lat.isNone || query.lon.isNone then
      .error ("Latitude and longitude are required")
    else
      .ok ⟨query.apiKey, ("metric"), none, none, query.lat, query.lon⟩

/-! refreshAll (App.vue 185-209) -/

/-- Promise.all over settled per-entry results: any rejection rejects the
whole batch (which error object wins is timing-dependent in JS; the model
picks the first in list order — every claim only depends on rejection
itself). -/
def promiseAll : List (Except JSError WeatherApiResponse) →
    Except JSError (List WeatherApiResponse)
  | [] => .ok []
  | .error e :: _ => .error e
  | .ok a :: rest =>
    match promiseAll rest with
    | .error e => .error e
    | .ok tail => .ok (a :: tail)

/-- What one refreshAll call did to the observable state. -/
structure RefreshOutcome where
  forecasts : List SavedForecast
  persisted : Option (List SavedForecast)
  raised : List (NoteKind × String)
deriving DecidableEq

/-- refreshAll (App.vue 185-209).  `outcomes` supplies each saved entry's
fetch result, in order; `now` is the Date.now() reading mapWeather uses.
API_KEY is a non-empty compile-time constant, so the `!API_KEY` early return
never fires; the empty-collection early return is kept. -/
def refreshAll (col : List SavedForecast)
    (outcomes : List (Except JSError WeatherApiResponse))
    (now : Int) (showMessage : Bool) : RefreshOutcome :=
  if col.length == 0 then ⟨col, none, []⟩
  else
    match promiseAll outcomes with
    | .ok raws =>
      let refreshed :=
        List.zipWith (fun item raw => { item with weather := mapWeather now raw })
          col raws
      ⟨refreshed, some refreshed,
        if showMessage then [(.success, ("Forecasts refreshed."))] else []⟩
    | .error e => ⟨col, none, [(.danger, parseError e)]⟩

/-! Persistence (storage.ts) -/

/-- A parsed JSON document.  The persisted blob is modelled at this level:
a healthy backend returns the written blob unchanged, and JSON.parse of
JSON.stringify of a document is that document. -/
inductive JValue where
  | null
  | bool (b : Bool)
  | num (q : Rat)
  | str (s : String)
  | arr (elems : List JValue)
  | obj (fields : List (String × JValue))

/-- First field with the given name (JS object member lookup). -/
def jGet (fields : List (String × JValue)) (key : String) : Option JValue :=
  (fields.find? (fun p => p.1 == key)).map (fun p => p.2)

def jStr : Option JValue → Option String
  | some (.str s) => some s
  | _ => none

def jNum : Option JValue → Option Rat
  | some (.num q) => some q
  | _ => none

def jInt : Option JValue → Option Int
  | some (.num q) => if q.den == 1 then some q.num else none
  | _ => none

/-- JSON.stringify of a WeatherView. -/
def encodeWeather (w : WeatherView) : JValue :=
  .obj [(("id"), .num (w.id : Rat)), (("name"), .str w.name),
    (("country"), .str w.country), (("description"), .str w.description),
    (("icon"), .str w.icon), (("temperature"), .num w.temperature),
    (("humidity"), .num w.humidity), (("wind"), .num w.wind),
    (("pressure"), .num w.pressure), (("sunrise"), .num (w.sunrise : Rat)),
    (("sunset"), .num (w.sunset : Rat)), (("updatedAt"), .num (w.updatedAt : Rat))]

/-- Structural reading of a stored WeatherView.  The source returns the
parsed objects unvalidated (a TypeScript cast); in the typed model the
reading back of the structure is made explicit. -/
def decodeWeather : JValue → Option WeatherView
  | .obj fs =>
    (jInt (jGet fs ("id"))).bind fun i =>
    (jStr (jGet fs ("name"))).bind fun name =>
    (jStr (jGet fs ("country"))).bind fun country =>
    (jStr (jGet fs ("description"))).bind fun description =>
    (jStr (jGet fs ("icon"))).bind fun icon =>
    (jNum (jGet fs ("temperature"))).bind fun temperature =>
    (jNum (jGet fs ("humidity"))).bind fun humidity =>
    (jNum (jGet fs ("wind"))).bind fun wind =>
    (jNum (jGet fs ("pressure"))).bind fun pressure =>
    (jInt (jGet fs ("sunrise"))).bind fun sunrise =>
    (jInt (jGet fs ("sunset"))).bind fun sunset =>
    (jInt (jGet fs ("updatedAt"))).bind fun updatedAt =>
    some ⟨i, name, country, description, icon, temperature, humidity, wind,
      pressure, sunrise, sunset, updatedAt⟩
  | _ => none

def modeFromString (s : String) : Option SearchMode :=
  if s == ("city") then some .city
  else if s == ("zip") then some .zip
  else if s == ("coords") then some .coords
  else none

/-- JSON.stringify of a SavedForecast; undefined optional fields are
omitted, as JSON.stringify does. -/
def encodeForecast (f : SavedForecast) : JValue :=
  .obj ([(("key"), .str f.key), (("mode"), .str f.mode.asString),
      (("value"), .str f.value)] ++
    (match f.country with
     | some c => [(("country"), .str c)]
     | none => []) ++
    (match f.lat with
     | some v => [(("lat"), .num v)]
     | none => []) ++
    (match f.lon with
     | some v => [(("lon"), .num v)]
     | none => []) ++
    [(("weather"), encodeWeather f.weather)])

/-- Structural reading of a stored SavedForecast (see decodeWeather). -/
def decodeForecast : JValue → Option SavedForecast
  | .obj fs =>
    (jStr (jGet fs ("key"))).bind fun key =>
    ((jStr (jGet fs ("mode"))).bind modeFromString).bind fun mode =>
    (jStr (jGet fs ("value"))).bind fun value =>
    ((jGet fs ("weather")).bind decodeWeather).bind fun weather =>
    some ⟨key, mode, value, jStr (jGet fs ("country")),
      jNum (jGet fs ("lat")), jNum (jGet fs ("lon")), weather⟩
  | _ => none

def encodeForecasts (items : List SavedForecast) : JValue :=
  .arr (items.map encodeForecast)

/-- loadSavedForecasts (storage.ts 191-203) over the stored blob: missing
slot or non-array blob yields the empty collection; an array is returned
as-is (read back through decodeForecast, see above). -/
def loadSavedForecasts (slot : Option JValue) : List SavedForecast :=
  match slot with
  | none => []
  | some (.arr elems) => elems.filterMap decodeForecast
  | some _ => []

/-- persistForecasts (storage.ts 205-211) on a healthy backend: the write
succeeds and the slot now holds the serialized collection. -/
def persistForecasts (items : List SavedForecast) : Option JValue :=
  some (encodeForecasts items)

/-! Concrete sample data used by witnesses and counterexamples -/

/-- A weather snapshot with all-trivial fields. -/
def wv0 : WeatherView :=
  ⟨0, (""), (""), (""), (""), 0, 0, 0, 0, 0, 0, 0⟩

def entryA : SavedForecast :=
  ⟨("city-a"), .city, ("a"), none, none, none, wv0⟩

def entryB : SavedForecast :=
  ⟨("city-b"), .city, ("b"), none, none, none, wv0⟩

/-- Same key as entryB, different payload: a re-add of the same location. -/
def entryB2 : SavedForecast :=
  ⟨("city-b"), .city, ("b"), none, none, none,
    { wv0 with updatedAt := 1 }⟩

def resp0 : WeatherApiResponse :=
  ⟨1, ("X"), none, none, none, []⟩

/-- Coordinate query whose latitude is NaN (and longitude defined). -/
def nanQuery : WeatherQuery :=
  ⟨.coords, none, none, none, some .nan, some (.num 0), ("k")⟩

def coordsQueryOk : WeatherQuery :=
  ⟨.coords, none, none, none, some (.num 1), some (.num 2), ("k")⟩

def coordsQueryMissing : WeatherQuery :=
  ⟨.coords, none, none, none, none, some (.num 2), ("k")⟩

/-- Coordinate form whose latitude field does not parse as a number. -/
def coordsFormBad : FormState :=
  ⟨.coords, (""), (""), (""), ("abc"), ("1")⟩

/-- Entry whose only non-trivial search field is the name "ab". -/
def entryAB : SavedForecast :=
  ⟨("city-ab"), .city, ("ab"), none, none, none, { wv0 with name := ("ab") }⟩

/-- Entry whose stored snapshot was taken at clock reading 5. -/
def entryOld : SavedForecast :=
  ⟨("city-x"), .city, ("x"), none, none, none, { wv0 with updatedAt := 5 }⟩

def respX : WeatherApiResponse :=
  ⟨0, (""), none, none, none, []⟩

/-- Re-add of entryOld's location, mapped at the same clock reading 5. -/
def entryNew : SavedForecast :=
  ⟨("city-x"), .city, ("x"), none, none, none, mapWeather 5 respX⟩

/-- Re-add of entryOld's location, mapped at the later clock reading 7. -/
def entryNew7 : SavedForecast :=
  ⟨("city-x"), .city, ("x"), none, none, none, mapWeather 7 respX⟩

/-- Zip form: postal code "10001 " (trailing blank), country "us". -/
def zipFormUS : FormState :=
  ⟨.zip, (""), ("10001 "), ("us"), (""), ("")⟩

/-- Zip form: postal code " 10001" (leading blank), country "gb". -/
def zipFormGB : FormState :=
  ⟨.zip, (""), (" 10001"), ("gb"), (""), ("")⟩

/-- The search filter exactly as claim C6 words it: the term is used as
given (no trimming), lower-cased, and matched as a substring of the
lower-cased name, country, description, or stringified rounded temperature.
Written from the claim's words for comparison with `filtered`. -/
def claimSearch (term : String) (col : List SavedForecast) : List SavedForecast :=
  if term == ("") then col
  else col.filter (fun f =>
    (searchFields f).any (fun s => strIncludes (jsToLower s) (jsToLower term)))

/-- The search filter as amended: identical to claim C6's reading except
that the term is first trimmed (as the source does).  Takes the
already-trimmed-and-lower-cased term. -/
def claimSearchOnTrimmed (t : String) (col : List SavedForecast) : List SavedForecast :=
  if t == ("") then col
  else col.filter (fun f =>
    (searchFields f).any (fun s => strIncludes (jsToLower s) t))

/-! Helper lemmas about the collection operations -/

theorem list_set_same {α : Type} (l : List α) (i : Nat) (a : α)
    (h : l[i]? = some a) : l.set i a = l := by
  induction l generalizing i with
  | nil => simp at h
  | cons x xs ih =>
    cases i with
    | zero => simp_all
    | succ n => simp_all

theorem findIndexKey_eq_none_iff (k : String) (col : List SavedForecast) :
    findIndexKey k col = none ↔ ∀ f ∈ col, f.key ≠ k := by
  induction col with
  | nil => simp [findIndexKey]
  | cons f rest ih =>
    by_cases hf : f.key = k
    · simp [findIndexKey, hf]
    · have h1 : findIndexKey k (f :: rest) = (findIndexKey k rest).map (· + 1) := by
        simp [findIndexKey, hf]
      rw [h1, Option.map_eq_none', ih]
      simp only [List.mem_cons]
      constructor
      · rintro hall g (rfl | hg)
        · exact hf
        · exact hall g hg
      · intro hall g hg
        exact hall g (Or.inr hg)

theorem findIndexKey_some_get (k : String) (col : List SavedForecast) (i : Nat)
    (h : findIndexKey k col = some i) : ∃ f, col[i]? = some f ∧ f.key = k := by
  induction col generalizing i with
  | nil => simp [findIndexKey] at h
  | cons f rest ih =>
    by_cases hf : f.key = k
    · simp only [findIndexKey, beq_iff_eq, if_pos hf, Option.some.injEq] at h
      subst h
      exact ⟨f, by simp, hf⟩
    · have h1 : findIndexKey k (f :: rest) = (findIndexKey k rest).map (· + 1) := by
        simp [findIndexKey, hf]
      rw [h1, Option.map_eq_some'] at h
      obtain ⟨j, hj, hji⟩ := h
      obtain ⟨g, hg, hgk⟩ := ih j hj
      subst hji
      exact ⟨g, by simpa using hg, hgk⟩

theorem findIndexKey_exists_of_mem (k : String) (col : List SavedForecast)
    (h : ∃ f ∈ col, f.key = k) : ∃ i, findIndexKey k col = some i := by
  induction col with
  | nil => simp at h
  | cons f rest ih =>
    by_cases hf : f.key = k
    · exact ⟨0, by simp [findIndexKey, hf]⟩
    · obtain ⟨g, hg, hgk⟩ := h
      rcases List.mem_cons.mp hg with rfl | hg'
      · exact absurd hgk hf
      · obtain ⟨i, hi⟩ := ih ⟨g, hg', hgk⟩
        exact ⟨i + 1, by simp [findIndexKey, hf, hi]⟩

theorem keys_handleAdd_of_found (item : SavedForecast) (col : List SavedForecast)
    (i : Nat) (h : findIndexKey item.key col = some i) :
    (handleAdd item col).map SavedForecast.key = col.map SavedForecast.key := by
  obtain ⟨f, hget, hkey⟩ := findIndexKey_some_get item.key col i h
  have hmap : (col.map SavedForecast.key)[i]? = some item.key := by
    rw [List.getElem?_map, hget]
    simp [hkey]
  rw [handleAdd, h, List.map_set]
  exact list_set_same _ i _ hmap

theorem nodup_keys_handleAdd (item : SavedForecast) (col : List SavedForecast)
    (h : (col.map SavedForecast.key).Nodup) :
    ((handleAdd item col).map SavedForecast.key).Nodup := by
  cases hf : findIndexKey item.key col with
  | some i => rw [keys_handleAdd_of_found item col i hf]; exact h
  | none =>
    have hnot : ∀ f ∈ col, f.key ≠ item.key :=
      (findIndexKey_eq_none_iff item.key col).mp hf
    rw [handleAdd, hf]
    simp only [List.map_cons, List.nodup_cons]
    refine ⟨?_, h⟩
    intro hmem
    obtain ⟨f, hfmem, hfkey⟩ := List.mem_map.mp hmem
    exact hnot f hfmem hfkey

theorem nodup_keys_removeForecast (k : String) (col : List SavedForecast)
    (h : (col.map SavedForecast.key).Nodup) :
    ((removeForecast k col).map SavedForecast.key).Nodup := by
  have hsub : (removeForecast k col).Sublist col := List.filter_sublist col
  exact h.sublist (hsub.map SavedForecast.key)

theorem nodup_keys_applyOp (col : List SavedForecast) (op : StoreOp)
    (h : (col.map SavedForecast.key).Nodup) :
    ((applyOp col op).map SavedForecast.key).Nodup := by
  cases op with
  | add item => exact nodup_keys_handleAdd item col h
  | remove k => exact nodup_keys_removeForecast k col h

theorem nodup_keys_foldl (ops : List StoreOp) (col : List SavedForecast)
    (h : (col.map SavedForecast.key).Nodup) :
    ((ops.foldl applyOp col).map SavedForecast.key).Nodup := by
  induction ops generalizing col with
  | nil => exact h
  | cons op rest ih => exact ih (applyOp col op) (nodup_keys_applyOp col op h)

/-- Claim C2: starting from the empty collection, any sequence of add and
remove operations yields a collection whose derived keys are pairwise
distinct — at most one entry per key. -/
theorem addRemove_key_unique (ops : List StoreOp) :
    ((applyOps ops).map SavedForecast.key).Nodup :=
  nodup_keys_foldl ops [] List.nodup_nil

/-- Claim C3: a successful add whose derived key matches no existing entry
inserts the new entry at the front; one whose key matches the entry at
(first) index i replaces exactly that entry in place — same length, the new
item at index i, every other position untouched. -/
theorem handleAdd_upsert_position (item : SavedForecast) (col : List SavedForecast) :
    ((∀ f ∈ col, f.key ≠ item.key) → handleAdd item col = item :: col) ∧
    (∀ i, findIndexKey item.key col = some i →
      (handleAdd item col).length = col.length ∧
      (handleAdd item col)[i]? = some item ∧
      ∀ j, j ≠ i → (handleAdd item col)[j]? = col[j]?) := by
  constructor
  · intro hnone
    rw [handleAdd, (findIndexKey_eq_none_iff item.key col).mpr hnone]
  · intro i hi
    obtain ⟨f, hget, hkey⟩ := findIndexKey_some_get item.key col i hi
    have hlt : i < col.length := by
      rcases List.getElem?_eq_some.mp hget with ⟨hl, _⟩
      exact hl
    rw [handleAdd, hi]
    refine ⟨List.length_set col i item, ?_, ?_⟩
    · exact List.getElem?_set_eq_of_lt item hlt
    · intro j hj
      exact List.getElem?_set_ne hj.symm

/-- Concrete run of handleAdd_upsert_position: a fresh key goes to the
front of [entryB]; re-adding key "city-b" to [entryA, entryB] keeps the
length, puts the new item at index 1 and leaves index 0 untouched. -/
theorem handleAdd_upsert_position_witness :
    handleAdd entryA [entryB] = [entryA, entryB] ∧
    (handleAdd entryB2 [entryA, entryB]).length = 2 ∧
    (handleAdd entryB2 [entryA, entryB])[1]? = some entryB2 ∧
    (handleAdd entryB2 [entryA, entryB])[0]? = [entryA, entryB][0]? :=
  ⟨(handleAdd_upsert_position entryA [entryB]).1 (by decide),
   ((handleAdd_upsert_position entryB2 [entryA, entryB]).2 1 (by decide)).1,
   ((handleAdd_upsert_position entryB2 [entryA, entryB]).2 1 (by decide)).2.1,
   ((handleAdd_upsert_position entryB2 [entryA, entryB]).2 1 (by decide)).2.2 0
     (by decide)⟩

/-! Helper lemmas about promiseAll and zipWith -/

theorem zipWith_getElem? {α β γ : Type} (f : α → β → γ) (l1 : List α)
    (l2 : List β) (i : Nat) (a : α) (b : β)
    (h1 : l1[i]? = some a) (h2 : l2[i]? = some b) :
    (List.zipWith f l1 l2)[i]? = some (f a b) := by
  induction l1 generalizing l2 i with
  | nil => simp at h1
  | cons x xs ih =>
    cases l2 with
    | nil => simp at h2
    | cons y ys =>
      cases i with
      | zero => simp_all
      | succ n =>
        simp only [List.getElem?_cons_succ] at h1 h2 ⊢
        rw [List.zipWith_cons_cons]
        simpa using ih ys n h1 h2

theorem promiseAll_ok_of (outcomes : List (Except JSError WeatherApiResponse))
    (raws : List WeatherApiResponse) (h : promiseAll outcomes = .ok raws) :
    outcomes = raws.map Except.ok := by
  induction outcomes generalizing raws with
  | nil =>
    simp only [promiseAll, Except.ok.injEq] at h
    subst h
    rfl
  | cons o rest ih =>
    cases o with
    | error e => simp [promiseAll] at h
    | ok a =>
      rw [promiseAll] at h
      cases hr : promiseAll rest with
      | error e => rw [hr] at h; exact absurd h (by simp)
      | ok tail =>
        rw [hr] at h
        simp only [Except.ok.injEq] at h
        subst h
        simp [ih tail hr]

theorem promiseAll_error_of_exists (outcomes : List (Except JSError WeatherApiResponse))
    (h : ∃ o ∈ outcomes, ∃ e, o = .error e) :
    ∃ e, promiseAll outcomes = .error e := by
  induction outcomes with
  | nil => simp at h
  | cons o rest ih =>
    cases o with
    | error e => exact ⟨e, rfl⟩
    | ok a =>
      obtain ⟨o', ho', e', he'⟩ := h
      rcases List.mem_cons.mp ho' with rfl | hmem
      · simp at he'
      · obtain ⟨e, he⟩ := ih ⟨o', hmem, e', he'⟩
        exact ⟨e, by rw [promiseAll, he]⟩

theorem promiseAll_ok_of_all (outcomes : List (Except JSError WeatherApiResponse))
    (h : ∀ o ∈ outcomes, ∃ raw, o = .ok raw) :
    ∃ raws, promiseAll outcomes = .ok raws := by
  induction outcomes with
  | nil => exact ⟨[], rfl⟩
  | cons o rest ih =>
    obtain ⟨a, ha⟩ := h o (List.mem_cons_self o rest)
    subst ha
    obtain ⟨raws, hraws⟩ := ih (fun o' ho' => h o' (List.mem_cons_of_mem _ ho'))
    exact ⟨a :: raws, by rw [promiseAll, hraws]⟩

/-- Claim C1: refreshAll is all-or-nothing.  With one fetch outcome per
saved entry: if any outcome is a rejection, the collection is unchanged,
nothing is persisted, and exactly one (danger) notification is raised; if
every outcome succeeds (and the collection is non-empty, else refreshAll
returns before fetching), every entry's weather is replaced by the mapped
snapshot and the resulting collection is persisted; and anything persisted
at all implies every fetch succeeded. -/
theorem refreshAll_all_or_nothing
    (col : List SavedForecast) (outcomes : List (Except JSError WeatherApiResponse))
    (now : Int) (showMessage : Bool)
    (hlen : outcomes.length = col.length) :
    ((∃ o ∈ outcomes, ∃ e, o = Except.error e) →
      (refreshAll col outcomes now showMessage).forecasts = col ∧
      (refreshAll col outcomes now showMessage).persisted = none ∧
      (refreshAll col outcomes now showMessage).raised.length = 1 ∧
      ∀ n ∈ (refreshAll col outcomes now showMessage).raised, n.1 = NoteKind.danger) ∧
    ((∀ o ∈ outcomes, ∃ raw, o = Except.ok raw) → col ≠ [] →
      (refreshAll col outcomes now showMessage).forecasts.length = col.length ∧
      (∀ (i : Nat) (item : SavedForecast) (raw : WeatherApiResponse),
        col[i]? = some item → outcomes[i]? = some (Except.ok raw) →
        (refreshAll col outcomes now showMessage).forecasts[i]? =
          some { item with weather := mapWeather now raw }) ∧
      (refreshAll col outcomes now showMessage).persisted =
        some (refreshAll col outcomes now showMessage).forecasts) ∧
    ((refreshAll col outcomes now showMessage).persisted ≠ none →
      ∀ o ∈ outcomes, ∃ raw, o = Except.ok raw) := by
  refine ⟨?_, ?_, ?_⟩
  · intro hex
    have hcolne : col ≠ [] := by
      intro hnil
      subst hnil
      simp at hlen
      subst hlen
      simp at hex
    have hguard : (col.length == 0) = false := by
      simpa using hcolne
    obtain ⟨e, hpe⟩ := promiseAll_error_of_exists outcomes hex
    have hre : refreshAll col outcomes now showMessage =
        ⟨col, none, [(.danger, parseError e)]⟩ := by
      rw [refreshAll, hguard]
      simp [hpe]
    rw [hre]
    refine ⟨rfl, rfl, rfl, ?_⟩
    intro n hn
    simp only [List.mem_singleton] at hn
    rw [hn]
  · intro hall hcolne
    have hguard : (col.length == 0) = false := by
      simpa using hcolne
    obtain ⟨raws, hok⟩ := promiseAll_ok_of_all outcomes hall
    have heq := promiseAll_ok_of outcomes raws hok
    have hrawlen : raws.length = col.length := by
      rw [heq] at hlen
      simpa using hlen
    have hre : refreshAll col outcomes now showMessage =
        ⟨List.zipWith (fun item raw => { item with weather := mapWeather now raw })
            col raws,
          some (List.zipWith
            (fun item raw => { item with weather := mapWeather now raw }) col raws),
          if showMessage then [(.success, ("Forecasts refreshed."))] else []⟩ := by
      rw [refreshAll, hguard]
      simp [hok]
    rw [hre]
    refine ⟨?_, ?_, rfl⟩
    · simp [List.length_zipWith, hrawlen]
    · intro i item raw hitem houtcome
      have hraw : raws[i]? = some raw := by
        rw [heq, List.getElem?_map] at houtcome
        cases hr : raws[i]? with
        | none => rw [hr] at houtcome; simp at houtcome
        | some r =>
          rw [hr] at houtcome
          simp only [Option.map_some', Option.some.injEq, Except.ok.injEq] at houtcome
          rw [houtcome]
      exact zipWith_getElem? _ col raws i item raw hitem hraw
  · intro hpers o ho
    by_cases hcol : col.length = 0
    · rw [refreshAll] at hpers
      simp [hcol] at hpers
    · have hguard : (col.length == 0) = false := by simpa using hcol
      cases hp : promiseAll outcomes with
      | error e =>
        rw [refreshAll, hguard] at hpers
        simp [hp] at hpers
      | ok raws =>
        have heq := promiseAll_ok_of outcomes raws hp
        rw [heq] at ho
        obtain ⟨raw, _, hraw⟩ := List.mem_map.mp ho
        exact ⟨raw, hraw.symm⟩

/-- Concrete run of refreshAll_all_or_nothing: over the one-entry
collection [entryA], a failing batch leaves the collection, persists
nothing and raises one notification; a fully successful batch persists the
refreshed collection. -/
theorem refreshAll_all_or_nothing_witness :
    (refreshAll [entryA] [Except.error JSError.other] 0 false).forecasts = [entryA] ∧
    (refreshAll [entryA] [Except.error JSError.other] 0 false).persisted = none ∧
    (refreshAll [entryA] [Except.error JSError.other] 0 false).raised.length = 1 ∧
    (refreshAll [entryA] [Except.ok resp0] 0 false).persisted =
      some (refreshAll [entryA] [Except.ok resp0] 0 false).forecasts := by
  have hfail := (refreshAll_all_or_nothing [entryA] [Except.error JSError.other]
    0 false rfl).1 ⟨Except.error JSError.other, by simp, JSError.other, rfl⟩
  have hsucc := ((refreshAll_all_or_nothing [entryA] [Except.ok resp0]
    0 false rfl).2.1 (by intro o ho; simp at ho; exact ⟨resp0, ho⟩)
    (by simp)).2.2
  exact ⟨hfail.1, hfail.2.1, hfail.2.2.1, hsucc⟩

/-- Claim C4, counterexample: fetchWeather itself does not reject NaN
coordinates.  Given a coords query whose latitude is NaN (and longitude
defined), fetchWeather raises no validation error: it proceeds and builds
the request with lat = NaN — contradicting the claim that the call fails
whenever latitude or longitude is NaN. -/
theorem fetchWeather_nan_proceeds :
    fetchWeather nanQuery =
      .ok ⟨("k"), ("metric"), none, none, some JSNum.nan, some (JSNum.num 0)⟩ :=
  rfl

/-- Claim C4 (amended): for every coords-mode query, fetchWeather fails
with a validation error before any network request exactly when latitude or
longitude is undefined; whenever both are defined — NaN included — the
request proceeds with lat and lon parameters.  The NaN rejection the claim
describes happens one step earlier, in buildQuery, which refuses to produce
a coords query whose parsed latitude or longitude is NaN. -/
theorem fetchWeather_coords_validation (q : WeatherQuery) (hmode : q.mode = .coords) :
    ((q.lat = none ∨ q.lon = none) →
      fetchWeather q = .error ("Latitude and longitude are required")) ∧
    (∀ (la lo : JSNum), q.lat = some la → q.lon = some lo →
      fetchWeather q = .ok ⟨q.apiKey, ("metric"), none, none, some la, some lo⟩) ∧
    (∀ (f : FormState), f.mode = .coords →
      ((jsNumber f.lat).isNaN || (jsNumber f.lon).isNaN) = true →
      buildQuery f = .error ("Enter valid coordinates.")) := by
  obtain ⟨mode, city, zip, country, lat, lon, apiKey⟩ := q
  simp only at hmode
  subst hmode
  refine ⟨?_, ?_, ?_⟩
  · rintro (rfl | rfl)
    · simp [fetchWeather]
    · simp [fetchWeather]
  · rintro la lo rfl rfl
    simp [fetchWeather]
  · intro f hf hnan
    obtain ⟨fmode, fcity, fzip, fzipCountry, flat, flon⟩ := f
    simp only at hf
    subst hf
    simp [buildQuery, hnan]

/-- Concrete runs of fetchWeather_coords_validation: a missing latitude is
rejected, defined coordinates go through with lat/lon parameters, and a
non-numeric latitude string is rejected by buildQuery. -/
theorem fetchWeather_coords_validation_witness :
    fetchWeather coordsQueryMissing = .error ("Latitude and longitude are required") ∧
    fetchWeather coordsQueryOk =
      .ok ⟨("k"), ("metric"), none, none, some (JSNum.num 1), some (JSNum.num 2)⟩ ∧
    buildQuery coordsFormBad = .error ("Enter valid coordinates.") :=
  ⟨(fetchWeather_coords_validation coordsQueryMissing rfl).1 (Or.inl rfl),
   (fetchWeather_coords_validation coordsQueryOk rfl).2.1 (.num 1) (.num 2) rfl rfl,
   (fetchWeather_coords_validation coordsQueryOk rfl).2.2 coordsFormBad rfl (by decide)⟩

/-- Claim C5: parseError's precedence, clause for clause.  A plain string
is returned as-is; request-sent-but-no-response yields the network message
(whatever the top-level message field holds); a response carrying a truthy
provider message yields "[status] message" (again regardless of the
top-level message); a response with only a status yields the 401/404/429
texts or the generic "API error: {status}"; otherwise a truthy top-level
message field is returned; and everything else falls back to the generic
text.  The clauses quantify over the lower-precedence data to show it is
ignored. -/
theorem parseError_precedence :
    (∀ s : String, parseError (.str s) = s) ∧
    (∀ msg : Option String, parseError (.obj true none msg) =
      ("Network error: Could not reach the server. Check your internet connection.")) ∧
    (∀ (req : Bool) (msg : Option String) (m : String) (st : Int),
      m ≠ ("") → st ≠ 0 →
      parseError (.obj req (some ⟨some m, some st⟩) msg) =
        (("[") ++ intToString st ++ ("] ")) ++ m) ∧
    (∀ (req : Bool) (msg : Option String),
      parseError (.obj req (some ⟨none, some 401⟩) msg) =
        ("Invalid API key. Please check your OpenWeatherMap API key.") ∧
      parseError (.obj req (some ⟨none, some 404⟩) msg) =
        ("City not found. Please check the city name.") ∧
      parseError (.obj req (some ⟨none, some 429⟩) msg) =
        ("Too many requests. Please wait a moment.")) ∧
    (∀ (req : Bool) (msg : Option String) (st : Int),
      st ≠ 0 → st ≠ 401 → st ≠ 404 → st ≠ 429 →
      parseError (.obj req (some ⟨none, some st⟩) msg) =
        ("API error: ") ++ intToString st) ∧
    (∀ m : String, m ≠ ("") → parseError (.obj false none (some m)) = m) ∧
    (parseError .other = ("Something went wrong. Please try again.") ∧
      parseError (.obj false none none) =
        ("Something went wrong. Please try again.")) := by
  refine ⟨fun s => rfl, fun msg => rfl, ?_, ?_, ?_, ?_, rfl, rfl⟩
  · intro req msg m st hm hst
    simp [parseError, truthyOptStr, truthyOptInt, hm, hst]
  · intro req msg
    refine ⟨?_, ?_, ?_⟩ <;> simp [parseError, truthyOptStr]
  · intro req msg st h0 h401 h404 h429
    simp [parseError, truthyOptStr, truthyOptInt, h0, h401, h404, h429]
  · intro m hm
    simp [parseError, truthyOptStr, hm]

/-- Concrete runs of parseError_precedence, one per clause: the network
message beats a present top-level message, a provider message beats the
top-level message and renders with its status, and the status-only and
message-only fallbacks fire. -/
theorem parseError_precedence_witness :
    parseError (.str ("boom")) = ("boom") ∧
    parseError (.obj true none (some ("outer"))) =
      ("Network error: Could not reach the server. Check your internet connection.") ∧
    parseError (.obj false (some ⟨some ("bad city"), some 404⟩) (some ("outer"))) =
      (("[") ++ intToString 404 ++ ("] ")) ++ ("bad city") ∧
    parseError (.obj false (some ⟨none, some 401⟩) none) =
      ("Invalid API key. Please check your OpenWeatherMap API key.") ∧
    parseError (.obj false (some ⟨none, some 500⟩) none) =
      ("API error: ") ++ intToString 500 ∧
    parseError (.obj false none (some ("plain message"))) = ("plain message") :=
  ⟨parseError_precedence.1 ("boom"),
   parseError_precedence.2.1 (some ("outer")),
   parseError_precedence.2.2.1 false (some ("outer")) ("bad city") 404
     (by decide) (by decide),
   (parseError_precedence.2.2.2.1 false none).1,
   parseError_precedence.2.2.2.2.1 false none 500
     (by decide) (by decide) (by decide) (by decide),
   parseError_precedence.2.2.2.2.2.1 ("plain message") (by decide)⟩

/-! Helper lemmas for the search semantics -/

theorem toList_eq_nil_iff (t : String) : t.toList = [] ↔ t = ("") := by
  constructor
  · intro h
    exact String.ext h
  · rintro rfl
    rfl

theorem strIncludes_empty_hay (t : String) (ht : t ≠ ("")) :
    strIncludes (jsToLower ("")) t = false := by
  show containsSub t.toList [] = false
  rw [containsSub]
  cases hc : t.toList with
  | nil => exact absurd ((toList_eq_nil_iff t).mp hc) ht
  | cons c cs => rfl

theorem any_filter_nonempty (l : List String) (p : String → Bool)
    (hp : p ("") = false) :
    (l.filter (fun s => s != (""))).any p = l.any p := by
  induction l with
  | nil => rfl
  | cons a rest ih =>
    by_cases ha : a = ("")
    · subst ha
      simp [List.filter_cons, List.any_cons, hp, ih]
    · simp [List.filter_cons, List.any_cons, ha, ih]

/-- Claim C6, counterexample: the claim uses the search term as given, but
the source trims it first.  For the term " a" (leading blank) over a
collection whose one entry has name "ab": the code keeps the entry (it
matches the trimmed term "a"), while the claim's own predicate — " a" as a
substring of a lower-cased field — keeps nothing; and " a" is not empty, so
the claim's empty-term clause does not apply either. -/
theorem filtered_untrimmed_counterexample :
    filtered (" a") [entryAB] = [entryAB] ∧
    claimSearch (" a") [entryAB] = [] ∧
    (" a") ≠ ("") := by
  refine ⟨by decide, by decide, by decide⟩

/-- Claim C6 (amended): search behaves exactly as the claim's predicate
applied to the trimmed lower-cased term — a term that trims to empty
returns the full collection in original order, and otherwise exactly the
entries one of whose lower-cased fields (name, country, description,
stringified rounded temperature) contains the trimmed lower-cased term
survive, in original order. -/
theorem filtered_search_semantics (term : String) (col : List SavedForecast) :
    filtered term col = claimSearchOnTrimmed (jsToLower (jsTrim term)) col := by
  by_cases ht : jsToLower (jsTrim term) = ("")
  · simp [filtered, claimSearchOnTrimmed, ht]
  · have htb : (jsToLower (jsTrim term) == ("")) = false := by
      simpa using ht
    simp only [filtered, claimSearchOnTrimmed, htb, Bool.false_eq_true, if_false]
    apply List.filter_congr
    intro f hf
    exact any_filter_nonempty (searchFields f) _ (strIncludes_empty_hay _ ht)

/-! Helper lemmas for pagination -/

theorem natCeilDiv10 (n : Nat) : ⌈((n : ℚ)) / 10⌉₊ = (n + 9) / 10 := by
  rcases Nat.eq_zero_or_pos n with h | h
  · subst h
    simp
  · rw [Nat.ceil_eq_iff (by omega)]
    constructor
    · rw [lt_div_iff₀ (by norm_num)]
      have hlt : ((n + 9) / 10 - 1) * 10 < n := by omega
      calc ((((n + 9) / 10 : ℕ) - 1 : ℕ) : ℚ) * 10
          = ((((n + 9) / 10 - 1) * 10 : ℕ) : ℚ) := by push_cast; ring
        _ < (n : ℚ) := by exact_mod_cast hlt
    · rw [div_le_iff₀ (by norm_num)]
      have hle : n ≤ (n + 9) / 10 * 10 := by omega
      calc (n : ℚ) ≤ (((n + 9) / 10 * 10 : ℕ) : ℚ) := by exact_mod_cast hle
        _ = (((n + 9) / 10 : ℕ) : ℚ) * 10 := by push_cast; ring

theorem chunks_flatten (k : Nat) (l : List SavedForecast) (h : l.length ≤ k * 10) :
    ((List.range k).map (fun i => (l.drop (i * 10)).take 10)).flatten = l := by
  induction k generalizing l with
  | zero =>
    simp only [Nat.zero_mul, Nat.le_zero] at h
    rw [List.length_eq_zero] at h
    subst h
    rfl
  | succ k ih =>
    rw [List.range_succ_eq_map]
    simp only [List.map_cons, List.flatten_cons, Nat.zero_mul, List.drop_zero,
      List.map_map]
    have hstep : ∀ i : Nat, ((fun i => (l.drop (i * 10)).take 10) ∘ (· + 1)) i
        = ((l.drop 10).drop (i * 10)).take 10 := by
      intro i
      simp only [Function.comp_apply, List.drop_drop]
      congr 2
      omega
    rw [List.map_congr_left (fun i _ => hstep i)]
    rw [ih (l.drop 10) (by simp only [List.length_drop]; omega)]
    exact List.take_append_drop 10 l

/-- Claim C7: with page size 10, the total page count is
max(1, ceil(N / 10)); every page is a slice of at most 10 items; the pages
taken in order partition the filtered sequence without overlap or omission;
and a current page exceeding the total resets to page 1. -/
theorem pagination_correct (col : List SavedForecast) :
    totalPages col.length = max 1 ⌈((col.length : ℚ)) / 10⌉₊ ∧
    (∀ page : Nat, (paged col page).length ≤ 10) ∧
    ((List.range (totalPages col.length)).map (fun i => paged col (i + 1))).flatten
      = col ∧
    (∀ cur : Nat, cur > totalPages col.length →
      watchFilteredReset cur (totalPages col.length) = 1) := by
  have h1 : totalPages col.length = max 1 ((col.length + 9) / 10) := by
    rw [totalPages]
    simp only [PAGE_SIZE]
    split <;> omega
  refine ⟨?_, ?_, ?_, ?_⟩
  · rw [h1, natCeilDiv10]
  · intro page
    rw [paged]
    simp only [PAGE_SIZE, List.length_take]
    omega
  · have hpg : ∀ i : Nat, paged col (i + 1) = (col.drop (i * 10)).take 10 := by
      intro i
      rw [paged]
      simp [PAGE_SIZE]
    rw [List.map_congr_left (fun i _ => hpg i)]
    apply chunks_flatten
    rw [h1]
    omega
  · intro cur hcur
    rw [watchFilteredReset, if_pos hcur]

/-- Concrete run of pagination_correct on the one-entry collection: one
total page, which holds exactly the collection, and a stale current page 2
resets to 1. -/
theorem pagination_correct_witness :
    watchFilteredReset 2 (totalPages ([entryA] : List SavedForecast).length) = 1 ∧
    ((List.range (totalPages ([entryA] : List SavedForecast).length)).map
      (fun i => paged [entryA] (i + 1))).flatten = [entryA] :=
  ⟨(pagination_correct [entryA]).2.2.2 2 (by decide),
   (pagination_correct [entryA]).2.2.1⟩

/-- Claim C8, counterexample: the code does not enforce strictly increasing
updatedAt.  mapWeather stamps the snapshot with the current Date.now()
reading, so a re-add whose fetch completes at the same millisecond as the
stored snapshot (clock reading 5 twice) replaces the entry's weather with a
new snapshot whose updatedAt equals — does not exceed — the replaced one. -/
theorem updatedAt_same_clock_counterexample :
    entryNew.key = entryOld.key ∧
    handleAdd entryNew [entryOld] = [entryNew] ∧
    entryNew.weather ≠ entryOld.weather ∧
    ¬ entryOld.weather.updatedAt < entryNew.weather.updatedAt := by
  refine ⟨by decide, by decide, by decide, by decide⟩

/-- Claim C8 (amended): whenever an entry's weather is replaced, the new
snapshot's updatedAt equals the Date.now() reading at which the snapshot was
built, and it strictly exceeds the replaced snapshot's updatedAt exactly
when that reading is strictly later — the code itself does not enforce
strictness (see the counterexample for a same-millisecond replacement). -/
theorem updatedAt_follows_clock (now : Int) (data : WeatherApiResponse)
    (item old : SavedForecast) (col : List SavedForecast) (i : Nat)
    (hitem : item.weather = mapWeather now data)
    (hfind : findIndexKey item.key col = some i) (hold : col[i]? = some old) :
    (handleAdd item col)[i]? = some item ∧
    item.weather.updatedAt = now ∧
    (old.weather.updatedAt < item.weather.updatedAt ↔
      old.weather.updatedAt < now) := by
  obtain ⟨f, hget, hkey⟩ := findIndexKey_some_get item.key col i hfind
  have hlt : i < col.length := by
    rcases List.getElem?_eq_some.mp hget with ⟨hl, _⟩
    exact hl
  have hup : item.weather.updatedAt = now := by
    rw [hitem]
    simp [mapWeather]
  refine ⟨?_, hup, ?_⟩
  · rw [handleAdd, hfind]
    exact List.getElem?_set_eq_of_lt item hlt
  · rw [hup]

/-- Concrete run of updatedAt_follows_clock: re-adding entryOld's location
at the strictly later clock reading 7 replaces the entry and strictly
increases updatedAt. -/
theorem updatedAt_follows_clock_witness :
    (handleAdd entryNew7 [entryOld])[0]? = some entryNew7 ∧
    entryNew7.weather.updatedAt = 7 ∧
    entryOld.weather.updatedAt < entryNew7.weather.updatedAt := by
  have h := updatedAt_follows_clock 7 respX entryNew7 entryOld [entryOld] 0
    rfl (by decide) rfl
  exact ⟨h.1, h.2.1, h.2.2.mpr (by decide)⟩

/-! Helper lemmas for the persistence round-trip -/

theorem decodeWeather_encodeWeather (w : WeatherView) :
    decodeWeather (encodeWeather w) = some w := by
  simp [encodeWeather, decodeWeather, jGet, jStr, jNum, jInt, List.find?]

theorem modeFromString_asString (m : SearchMode) :
    modeFromString m.asString = some m := by
  cases m <;> rfl

theorem decodeForecast_encodeForecast (f : SavedForecast) :
    decodeForecast (encodeForecast f) = some f := by
  obtain ⟨key, mode, value, country, lat, lon, weather⟩ := f
  cases country <;> cases lat <;> cases lon <;>
    simp [encodeForecast, decodeForecast, jGet, jStr, jNum, jInt,
      modeFromString_asString, decodeWeather_encodeWeather, List.find?]

/-- Claim C9: on a healthy storage backend (the write succeeds and the
stored blob is read back unchanged), persistForecasts followed by
loadSavedForecasts returns the collection unchanged — same keys, same
order, same weather fields. -/
theorem persist_load_roundtrip (items : List SavedForecast) :
    loadSavedForecasts (persistForecasts items) = items := by
  simp only [persistForecasts, loadSavedForecasts, encodeForecasts]
  rw [List.filterMap_map]
  rw [show decodeForecast ∘ encodeForecast = some from
    funext decodeForecast_encodeForecast]
  exact List.filterMap_some items

/-! Helper lemmas for the zip-key claim -/

theorem mem_handleAdd_self (item : SavedForecast) (col : List SavedForecast) :
    item ∈ handleAdd item col := by
  cases hf : findIndexKey item.key col with
  | none =>
    rw [handleAdd, hf]
    exact List.mem_cons_self _ _
  | some i =>
    obtain ⟨f, hget, hkey⟩ := findIndexKey_some_get item.key col i hf
    have hlt : i < col.length := by
      rcases List.getElem?_eq_some.mp hget with ⟨hl, _⟩
      exact hl
    have hset : (col.set i item)[i]? = some item :=
      List.getElem?_set_eq_of_lt item hlt
    rcases List.getElem?_eq_some.mp hset with ⟨hl2, hv⟩
    have hm := List.getElem_mem hl2
    rw [hv] at hm
    rw [handleAdd, hf]
    exact hm

/-- Claim C10: the derived key of a zip-mode entry does not include the
country code.  Two successful zip-mode adds with the same trimmed postal
code but (any, in particular different) country codes derive the identical
key; and whenever two added items carry the same key, the second add
replaces an existing entry in place — same collection length, the second
item stored at the matching index — rather than creating a second entry. -/
theorem zip_key_ignores_country :
    (∀ (f1 f2 : FormState) (q1 q2 : BuiltQuery),
      f1.mode = .zip → f2.mode = .zip →
      buildQuery f1 = .ok q1 → buildQuery f2 = .ok q2 →
      jsTrim f1.zip = jsTrim f2.zip →
      deriveKey q1 = deriveKey q2) ∧
    (∀ (item1 item2 : SavedForecast) (col : List SavedForecast),
      item1.key = item2.key →
      ∃ i, findIndexKey item2.key (handleAdd item1 col) = some i ∧
        (handleAdd item2 (handleAdd item1 col)).length
          = (handleAdd item1 col).length ∧
        (handleAdd item2 (handleAdd item1 col))[i]? = some item2) := by
  constructor
  · intro f1 f2 q1 q2 h1 h2 hb1 hb2 hzip
    obtain ⟨m1, c1, z1, zc1, la1, lo1⟩ := f1
    obtain ⟨m2, c2, z2, zc2, la2, lo2⟩ := f2
    simp only at h1 h2
    subst h1
    subst h2
    simp only [buildQuery] at hb1 hb2
    split at hb1
    · exact absurd hb1 (by simp)
    · split at hb2
      · exact absurd hb2 (by simp)
      · simp only [Except.ok.injEq] at hb1 hb2
        subst hb1
        subst hb2
        simp only at hzip
        simp [deriveKey, jsOrElse, hzip]
  · intro item1 item2 col hkey
    have hex : ∃ f ∈ handleAdd item1 col, f.key = item2.key :=
      ⟨item1, mem_handleAdd_self item1 col, hkey⟩
    obtain ⟨i, hi⟩ := findIndexKey_exists_of_mem item2.key (handleAdd item1 col) hex
    obtain ⟨f, hget, _⟩ := findIndexKey_some_get item2.key (handleAdd item1 col) i hi
    have hlt : i < (handleAdd item1 col).length := by
      rcases List.getElem?_eq_some.mp hget with ⟨hl, _⟩
      exact hl
    refine ⟨i, hi, ?_, ?_⟩
    · rw [handleAdd, hi]
      exact List.length_set _ _ _
    · rw [handleAdd, hi]
      exact List.getElem?_set_eq_of_lt item2 hlt

/-- Concrete run of zip_key_ignores_country: postal code "10001" with
country "us" and with country "gb" derive the same key, and a second add
with an existing key keeps the collection length. -/
theorem zip_key_ignores_country_witness :
    deriveKey ⟨.zip, none, some ("10001"), some ("us"), none, none⟩ =
      deriveKey ⟨.zip, none, some ("10001"), some ("gb"), none, none⟩ ∧
    (handleAdd entryB2 (handleAdd entryB [entryA])).length
      = (handleAdd entryB [entryA]).length := by
  obtain ⟨i, hi, hlen, hget⟩ :=
    zip_key_ignores_country.2 entryB entryB2 [entryA] rfl
  exact ⟨zip_key_ignores_country.1 zipFormUS zipFormGB _ _ rfl rfl rfl rfl
    (by decide), hlen⟩
